import Mathlib

set_option maxHeartbeats 1000000
set_option maxRecDepth 100000

namespace DiscordBot

/-!
Shallow embedding of the orchestration core of the Discord-Bot repository:
the provider availability store and AI router (cogs/ai.py), the ensemble
combiner (cogs/ai_orchestrator.py), the module fan-out engine and aggregator
(cogs/automation.py), the report builder (cogs/reports.py), and the
backoff loop of the bulk source generator (advanced_osint_source_generator.py).
Timestamps are rational numbers of seconds; file I/O is modelled by passing
the stored record in and out explicitly.
-/

/-- Per-provider availability record persisted in ai_availability.json,
with fields available, last_limit (a timestamp, here in seconds),
limit_type and used (cogs/ai.py, load_ai_availability). -/
structure ProviderInfo where
  available : Bool
  last_limit : Option ℚ
  limit_type : Option String
  used : Nat
deriving Repr, DecidableEq

/-- mark_ai_available of cogs/ai.py: set available, clear last_limit and limit_type. -/
def mark_ai_available (s : ProviderInfo) : ProviderInfo :=
  { s with available := true, last_limit := none, limit_type := none }

/-- mark_ai_unavailable of cogs/ai.py: clear available, record the current
time and the limit type. -/
def mark_ai_unavailable (s : ProviderInfo) (now : ℚ) (lt : String) : ProviderInfo :=
  { s with available := false, last_limit := some now, limit_type := some lt }

/-- increment_ai_usage of cogs/ai.py. -/
def increment_ai_usage (s : ProviderInfo) : ProviderInfo :=
  { s with used := s.used + 1 }

/-- is_ai_available of cogs/ai.py: availability check with auto-recovery.
If the stored record is unavailable and carries a timestamp, a minute limit
recovers after more than 60 seconds and a daily limit after more than
86400 seconds; any other limit type never auto-recovers. The function
returns the answer together with the (possibly rewritten) stored record. -/
def is_ai_available (s : ProviderInfo) (now : ℚ) : Bool × ProviderInfo :=
  if s.available = false then
    match s.last_limit with
    | some last =>
      if s.limit_type = some "minute" ∧ now - last > 60 then (true, mark_ai_available s)
      else if s.limit_type = some "daily" ∧ now - last > 86400 then (true, mark_ai_available s)
      else (false, s)
    | none => (false, s)
  else (true, s)

/-- get_available_ai_providers of cogs/ai.py: the list of available
providers is the singleton cohere when the stored record says available,
and empty otherwise. -/
def get_available_ai_providers (s : ProviderInfo) : List String :=
  if s.available then ["cohere"] else []

/-- C2: availability auto-recovery. With limit_type minute and a timestamp
more than 60 seconds in the past, is_ai_available answers true and clears
last_limit and limit_type; at 59 seconds in the past it answers false and
leaves the record untouched; a daily limit recovers exactly when more than
86400 seconds have elapsed; a hard limit never auto-recovers, at any time. -/
theorem C2_availability_auto_recovery (u : Nat) (last n₁ n₂ n₃ n₄ n₅ : ℚ)
    (h₁ : n₁ - last > 60) (h₂ : n₂ - last = 59)
    (h₃ : n₃ - last > 86400) (h₄ : n₄ - last ≤ 86400) :
    is_ai_available ⟨false, some last, some "minute", u⟩ n₁ =
      (true, ⟨true, none, none, u⟩) ∧
    is_ai_available ⟨false, some last, some "minute", u⟩ n₂ =
      (false, ⟨false, some last, some "minute", u⟩) ∧
    is_ai_available ⟨false, some last, some "daily", u⟩ n₃ =
      (true, ⟨true, none, none, u⟩) ∧
    is_ai_available ⟨false, some last, some "daily", u⟩ n₄ =
      (false, ⟨false, some last, some "daily", u⟩) ∧
    is_ai_available ⟨false, some last, some "hard", u⟩ n₅ =
      (false, ⟨false, some last, some "hard", u⟩) := by
  refine ⟨?_, ?_, ?_, ?_, ?_⟩
  · simp [is_ai_available, mark_ai_available, h₁]
  · have h59 : ¬ (n₂ - last > 60) := by rw [h₂]; norm_num
    simp [is_ai_available, h59]
  · have hmin : ¬ ((some "daily" : Option String) = some "minute") := by simp
    simp [is_ai_available, mark_ai_available, hmin, h₃]
  · have hle : ¬ (n₄ - last > 86400) := not_lt.mpr h₄
    simp [is_ai_available, hle]
  · simp [is_ai_available]

/-- Witness for C2 at concrete inputs: last limit at time 0, checks at
61, 59, 90000 and 1000 seconds, and a hard limit probed far in the future. -/
theorem C2_availability_auto_recovery_witness :
    is_ai_available ⟨false, some 0, some "minute", 3⟩ 61 =
      (true, ⟨true, none, none, 3⟩) ∧
    is_ai_available ⟨false, some 0, some "minute", 3⟩ 59 =
      (false, ⟨false, some 0, some "minute", 3⟩) ∧
    is_ai_available ⟨false, some 0, some "daily", 3⟩ 90000 =
      (true, ⟨true, none, none, 3⟩) ∧
    is_ai_available ⟨false, some 0, some "daily", 3⟩ 1000 =
      (false, ⟨false, some 0, some "daily", 3⟩) ∧
    is_ai_available ⟨false, some 0, some "hard", 3⟩ 1000000 =
      (false, ⟨false, some 0, some "hard", 3⟩) :=
  C2_availability_auto_recovery 3 0 61 59 90000 1000 1000000
    (by norm_num) (by norm_num) (by norm_num) (by norm_num)

/-- Character-list prefix test. -/
def charsStartWith : List Char → List Char → Bool
  | _, [] => true
  | [], _ :: _ => false
  | a :: as, b :: bs => a = b && charsStartWith as bs

/-- Character-list infix test: some suffix of the haystack starts with the needle. -/
def charsContain : List Char → List Char → Bool
  | [], needle => needle.isEmpty
  | a :: rest, needle => charsStartWith (a :: rest) needle || charsContain rest needle

/-- Boolean substring test, modelling the python membership test on strings. -/
def strContains (haystack needle : String) : Bool :=
  charsContain haystack.toList needle.toList

/-- Lower-casing of a string, modelling the python lower method. -/
def lowerStr (s : String) : String :=
  String.mk (s.toList.map Char.toLower)

/-- Boolean prefix test on strings. -/
def strStartsWith (s p : String) : Bool :=
  charsStartWith s.toList p.toList

/-- Truthiness of an optional string, as python evaluates it: present and
nonempty. -/
def optTruthy : Option String → Bool
  | some s => s ≠ ""
  | none => false

/-- Python expression (o or d): the stored string when truthy, else the default. -/
def orDefault (o : Option String) (d : String) : String :=
  match o with
  | some s => if s = "" then d else s
  | none => d

/-- Canonical result record of section 3, produced by normalize_ai_output
and analyze of cogs/ai.py: all sequence fields always present. -/
structure AIResult where
  text : String
  images : List String
  audio : List String
  video : List String
  links : List String
  maps : List String
  files : List String
  error : Option String
deriving Repr, DecidableEq

/-- The all-empty result record that normalize_ai_output and analyze start from. -/
def emptyAIResult : AIResult :=
  { text := "", images := [], audio := [], video := [], links := [], maps := [],
    files := [], error := none }

/-- A structured (dict) provider response as read by normalize_ai_output:
each known key is present with a value of the checked type, or counts as
absent. The error field is some exactly when the key is present and truthy,
holding its string rendering. Unknown keys are not read by the code and so
do not appear in the model. -/
structure RawDict where
  text : Option String
  images : Option (List String)
  audio : Option (List String)
  video : Option (List String)
  links : Option (List String)
  maps : Option (List String)
  files : Option (List String)
  error : Option String
deriving Repr, DecidableEq

/-- A raw provider output: a bare string, a dict, or anything else. -/
inductive RawOutput where
  | str (s : String)
  | dict (d : RawDict)
  | other
deriving Repr, DecidableEq

/-- normalize_ai_output of cogs/ai.py: coerce a raw provider output into the
canonical result record. A bare string becomes the text field, unless it
starts (case-insensitively) with the cohere error sentinel, in which case it
becomes the error field; a dict is field-mapped onto the known keys; anything
else yields the unrecognized-output error. -/
def normalize_ai_output : RawOutput → AIResult
  | .str s =>
    if strStartsWith (lowerStr s) "error during cohere completion:" then
      { emptyAIResult with error := some s }
    else
      { emptyAIResult with text := s }
  | .dict d =>
    { text := d.text.getD ""
      images := d.images.getD []
      audio := d.audio.getD []
      video := d.video.getD []
      links := d.links.getD []
      maps := d.maps.getD []
      files := d.files.getD []
      error := d.error }
  | .other => { emptyAIResult with error := some "AI output was not recognized" }

/-- The per-key copy loop of the analyze success path in cogs/ai.py: every
truthy field of the normalized record overwrites the corresponding field of
the output record. -/
def copy_truthy (output norm : AIResult) : AIResult :=
  { text := if norm.text ≠ "" then norm.text else output.text
    images := if norm.images ≠ [] then norm.images else output.images
    audio := if norm.audio ≠ [] then norm.audio else output.audio
    video := if norm.video ≠ [] then norm.video else output.video
    links := if norm.links ≠ [] then norm.links else output.links
    maps := if norm.maps ≠ [] then norm.maps else output.maps
    files := if norm.files ≠ [] then norm.files else output.files
    error := if optTruthy norm.error then norm.error else output.error }

/-- Success test of analyze in cogs/ai.py: the normalized answer has
nonempty text, no truthy error, and the lowered text does not contain the
word error. -/
def ai_success_cond (answer : String) : Bool :=
  let norm := normalize_ai_output (.str answer)
  norm.text ≠ "" && !(optTruthy norm.error) && !(strContains (lowerStr norm.text) "error")

/-- Failure message of analyze in cogs/ai.py: the normalized error when
truthy, else the no-usable-result message. -/
def ai_error_msg (answer : String) : String :=
  orDefault (normalize_ai_output (.str answer)).error "Provider returned no usable result."

/-- Rate-limit classification of analyze in cogs/ai.py: the message contains
429, or its lowering contains the words rate limit. -/
def is_rate_limit_msg (msg : String) : Bool :=
  strContains msg "429" || strContains (lowerStr msg) "rate limit"

/-- Outcome of the analyze entrypoint of cogs/ai.py: the result record,
confidence, the details entries, the source tag, the availability record as
left on disk, and how many network calls were made. -/
structure AnalyzeResult where
  result : AIResult
  confidence : ℚ
  detailsProvider : Option String
  detailsError : Option String
  source : String
  store : ProviderInfo
  networkCalls : Nat
deriving Repr, DecidableEq

/-- Failure branch of analyze in cogs/ai.py: set the error and the failure
text, classify the message as rate limit (minute) or other (hard), mark the
provider unavailable accordingly, confidence 0. -/
def analyzeFailure (s : ProviderInfo) (now : ℚ) (msg : String) (calls : Nat) :
    AnalyzeResult :=
  { result := { emptyAIResult with
      error := some msg
      text := "Cohere AI provider failed or is rate-limited: " ++ msg }
    confidence := 0
    detailsProvider := none
    detailsError := some msg
    source := "ai"
    store := if is_rate_limit_msg msg
             then mark_ai_unavailable s now "minute"
             else mark_ai_unavailable s now "hard"
    networkCalls := calls }

/-- analyze of cogs/ai.py, with the raw provider answer passed as an oracle
string standing for the value the underlying cohere call would return.
The availability store is threaded explicitly; networkCalls counts how often
the oracle is consulted. The inner availability re-check reflects the check
performed by ask_cohere before its network call. -/
def analyze (s : ProviderInfo) (now : ℚ) (oracle : String) : AnalyzeResult :=
  let p := is_ai_available s now
  if p.1 = false then
    { result := { emptyAIResult with
        text := "Cohere AI provider is unavailable due to rate limiting or error."
        error := some "Provider unavailable." }
      confidence := 0
      detailsProvider := none
      detailsError := none
      source := "ai"
      store := p.2
      networkCalls := 0 }
  else
    let q := is_ai_available p.2 now
    if q.1 = false then
      analyzeFailure q.2 now
        "Cohere AI provider is currently unavailable due to rate limiting or error." 0
    else
      if ai_success_cond oracle then
        { result := copy_truthy emptyAIResult (normalize_ai_output (.str oracle))
          confidence := 8 / 10
          detailsProvider := some "cohere"
          detailsError := none
          source := "ai"
          store := increment_ai_usage (mark_ai_available q.2)
          networkCalls := 1 }
      else
        analyzeFailure q.2 now (ai_error_msg oracle) 1

/-- A true answer of is_ai_available is stable: re-checking the returned
record at the same time answers true again and leaves the record unchanged. -/
theorem is_ai_available_stable (s : ProviderInfo) (now : ℚ)
    (h : (is_ai_available s now).1 = true) :
    is_ai_available (is_ai_available s now).2 now = (true, (is_ai_available s now).2) := by
  cases hav : s.available with
  | true => simp [is_ai_available, hav]
  | false =>
    cases hll : s.last_limit with
    | none => simp [is_ai_available, hav, hll] at h
    | some last =>
      by_cases hmin : s.limit_type = some "minute" ∧ now - last > 60
      · simp [is_ai_available, hav, hll, hmin, mark_ai_available]
      · by_cases hday : s.limit_type = some "daily" ∧ now - last > 86400
        · simp [is_ai_available, hav, hll, hmin, hday, mark_ai_available]
        · simp [is_ai_available, hav, hll, hmin, hday] at h

/-- C7 counterexample: the claim says every bare string response becomes the
text field, but normalize_ai_output routes a string starting with the cohere
error sentinel into the error field, leaving text empty. -/
theorem C7_normalize_string_counterexample :
    (normalize_ai_output (.str "Error during Cohere completion: x")).text = "" ∧
    (normalize_ai_output (.str "Error during Cohere completion: x")).text ≠
      "Error during Cohere completion: x" ∧
    (normalize_ai_output (.str "Error during Cohere completion: x")).error =
      some "Error during Cohere completion: x" :=
  ⟨by decide, by decide, by decide⟩

/-- C7 (amended): normalization produces the canonical result shape. A bare
string becomes the text field unless it starts, case-insensitively, with the
prefix error during cohere completion, in which case it becomes the error
field; a dict is field-mapped onto the known keys with unknown keys ignored;
any other output yields the unrecognized-output error; all sequence fields
are present in every case. -/
theorem C7_normalize_shape (s t : String) (d : RawDict)
    (hs : strStartsWith (lowerStr s) "error during cohere completion:" = false)
    (ht : strStartsWith (lowerStr t) "error during cohere completion:" = true) :
    normalize_ai_output (.str s) = { emptyAIResult with text := s } ∧
    normalize_ai_output (.str t) = { emptyAIResult with error := some t } ∧
    normalize_ai_output (.dict d) =
      { text := d.text.getD ""
        images := d.images.getD []
        audio := d.audio.getD []
        video := d.video.getD []
        links := d.links.getD []
        maps := d.maps.getD []
        files := d.files.getD []
        error := d.error } ∧
    normalize_ai_output .other =
      { emptyAIResult with error := some "AI output was not recognized" } := by
  refine ⟨?_, ?_, rfl, rfl⟩
  · simp [normalize_ai_output, hs]
  · simp [normalize_ai_output, ht]

/-- Witness for C7 at concrete inputs: a plain string, an error-sentinel
string, and a concrete dict. -/
theorem C7_normalize_shape_witness :
    normalize_ai_output (.str "hello") = { emptyAIResult with text := "hello" } ∧
    normalize_ai_output (.str "Error during Cohere completion: y") =
      { emptyAIResult with error := some "Error during Cohere completion: y" } ∧
    normalize_ai_output
        (.dict ⟨some "t", some ["i"], none, none, some ["l"], none, none, some "e"⟩) =
      { text := "t"
        images := ["i"]
        audio := []
        video := []
        links := ["l"]
        maps := []
        files := []
        error := some "e" } ∧
    normalize_ai_output .other =
      { emptyAIResult with error := some "AI output was not recognized" } :=
  C7_normalize_shape "hello" "Error during Cohere completion: y"
    ⟨some "t", some ["i"], none, none, some ["l"], none, none, some "e"⟩
    (by decide) (by decide)

/-- C6: when the availability store says the provider is unavailable,
analyze fails fast with the provider-unavailable error and confidence 0, and
the provider oracle is never consulted: the whole outcome is a constant
record that does not mention the oracle, with zero network calls. -/
theorem C6_unavailable_fail_fast (s : ProviderInfo) (now : ℚ) (oracle : String)
    (h : (is_ai_available s now).1 = false) :
    analyze s now oracle =
      { result := { emptyAIResult with
          text := "Cohere AI provider is unavailable due to rate limiting or error."
          error := some "Provider unavailable." }
        confidence := 0
        detailsProvider := none
        detailsError := none
        source := "ai"
        store := (is_ai_available s now).2
        networkCalls := 0 } ∧
    (analyze s now oracle).networkCalls = 0 ∧
    (analyze s now oracle).result.error = some "Provider unavailable." ∧
    (analyze s now oracle).confidence = 0 := by
  have h1 : analyze s now oracle =
      { result := { emptyAIResult with
          text := "Cohere AI provider is unavailable due to rate limiting or error."
          error := some "Provider unavailable." }
        confidence := 0
        detailsProvider := none
        detailsError := none
        source := "ai"
        store := (is_ai_available s now).2
        networkCalls := 0 } := by
    simp [analyze, h]
  exact ⟨h1, by rw [h1], by rw [h1], by rw [h1]⟩

/-- Witness for C6 at a concrete hard-unavailable store. -/
theorem C6_unavailable_fail_fast_witness :
    analyze ⟨false, some 0, some "hard", 0⟩ 5 "hello" =
      { result := { emptyAIResult with
          text := "Cohere AI provider is unavailable due to rate limiting or error."
          error := some "Provider unavailable." }
        confidence := 0
        detailsProvider := none
        detailsError := none
        source := "ai"
        store := (is_ai_available ⟨false, some 0, some "hard", 0⟩ 5).2
        networkCalls := 0 } ∧
    (analyze ⟨false, some 0, some "hard", 0⟩ 5 "hello").networkCalls = 0 ∧
    (analyze ⟨false, some 0, some "hard", 0⟩ 5 "hello").result.error =
      some "Provider unavailable." ∧
    (analyze ⟨false, some 0, some "hard", 0⟩ 5 "hello").confidence = 0 :=
  C6_unavailable_fail_fast ⟨false, some 0, some "hard", 0⟩ 5 "hello" (by decide)

/-- C8: when the provider is available but the call does not yield a usable
answer, analyze records the failure in the availability store, classifying a
message containing 429 or rate limit as a minute limit and anything else as
a hard limit; the returned envelope carries the error and confidence 0. -/
theorem C8_failure_classification (s : ProviderInfo) (now : ℚ) (oracle : String)
    (h1 : (is_ai_available s now).1 = true)
    (h2 : ai_success_cond oracle = false) :
    (analyze s now oracle).result.error = some (ai_error_msg oracle) ∧
    (analyze s now oracle).confidence = 0 ∧
    (analyze s now oracle).store.available = false ∧
    (analyze s now oracle).store.last_limit = some now ∧
    (analyze s now oracle).store.limit_type =
      some (if is_rate_limit_msg (ai_error_msg oracle) then "minute" else "hard") ∧
    (analyze s now oracle).networkCalls = 1 := by
  have hst := is_ai_available_stable s now h1
  have hform : analyze s now oracle =
      analyzeFailure (is_ai_available s now).2 now (ai_error_msg oracle) 1 := by
    simp [analyze, h1, hst, h2]
  rw [hform]
  unfold analyzeFailure
  by_cases hr : is_rate_limit_msg (ai_error_msg oracle)
  · simp [hr, mark_ai_unavailable]
  · simp [hr, mark_ai_unavailable]

/-- Witness for C8 at a concrete available store and a rate-limited answer. -/
theorem C8_failure_classification_witness :
    (analyze ⟨true, none, none, 0⟩ 0 "Error during Cohere completion: 429").result.error =
      some "Error during Cohere completion: 429" ∧
    (analyze ⟨true, none, none, 0⟩ 0 "Error during Cohere completion: 429").confidence = 0 ∧
    (analyze ⟨true, none, none, 0⟩ 0 "Error during Cohere completion: 429").store.available =
      false ∧
    (analyze ⟨true, none, none, 0⟩ 0 "Error during Cohere completion: 429").store.last_limit =
      some 0 ∧
    (analyze ⟨true, none, none, 0⟩ 0 "Error during Cohere completion: 429").store.limit_type =
      some "minute" ∧
    (analyze ⟨true, none, none, 0⟩ 0 "Error during Cohere completion: 429").networkCalls = 1 := by
  have h := C8_failure_classification ⟨true, none, none, 0⟩ 0
    "Error during Cohere completion: 429" (by decide) (by decide)
  have he : ai_error_msg "Error during Cohere completion: 429" =
      "Error during Cohere completion: 429" := by decide
  have hr : is_rate_limit_msg "Error during Cohere completion: 429" = true := by decide
  rw [he, hr] at h
  simpa using h

/-- Per-provider outcome seen by the ensemble loop of ai_orchestrate in
cogs/ai_orchestrator.py: either the result record of the analyze call
(its text and error fields, the only ones read), or an exception. -/
inductive ProvOutcome where
  | env (text : String) (error : Option String)
  | exn (msg : String)
deriving Repr, DecidableEq

/-- The provider loop of the ensemble branch of ai_orchestrate: a truthy
error appends a formatted failure and skips the provider; otherwise a
nonempty text appends to the successes; an exception appends a formatted
failure. Accumulators are threaded in loop order. -/
def ensembleLoop : List (String × ProvOutcome) → List (String × String) → List String →
    List (String × String) × List String
  | [], results, errors => (results, errors)
  | (name, .env t e) :: rest, results, errors =>
    if optTruthy e then
      ensembleLoop rest results (errors ++ [name ++ ": " ++ e.getD ""])
    else if t ≠ "" then
      ensembleLoop rest (results ++ [(name, t)]) errors
    else
      ensembleLoop rest results errors
  | (name, .exn m) :: rest, results, errors =>
    ensembleLoop rest results (errors ++ [name ++ ": " ++ m])

/-- Return record of ai_orchestrate: provider, result, details, error. -/
structure OrchOut where
  provider : Option (List String)
  result : Option String
  details : Option String
  error : Option String
deriving Repr, DecidableEq

/-- Ensemble branch of ai_orchestrate in cogs/ai_orchestrator.py: run the
provider loop, then either merge the successful texts with a single-space
separator, or report the collected failures joined by a semicolon. -/
def ai_orchestrate_ensemble (ps : List (String × ProvOutcome)) : OrchOut :=
  let racc := ensembleLoop ps [] []
  let results := racc.1
  let errors := racc.2
  if results ≠ [] then
    let merged := String.intercalate " " ((results.map Prod.snd).filter (fun t => t ≠ ""))
    { provider := some (results.map Prod.fst)
      result := some merged
      details := none
      error := if merged ≠ "" then none
               else if errors ≠ [] then some (String.intercalate "; " errors)
               else some "All providers failed." }
  else
    { provider := none
      result := none
      details := some (if errors ≠ [] then String.intercalate "; " errors
                       else "All providers failed.")
      error := some (if errors ≠ [] then String.intercalate "; " errors
                     else "All providers failed.") }

/-- Successful providers in provider-list order, as described by the spec:
no truthy error and a nonempty text. -/
def ensembleSuccesses (ps : List (String × ProvOutcome)) : List (String × String) :=
  ps.filterMap (fun p =>
    match p.2 with
    | .env t e => if optTruthy e then none else if t ≠ "" then some (p.1, t) else none
    | .exn _ => none)

/-- Failure reasons in provider-list order: a truthy error field or an
exception, each formatted with the provider name. -/
def ensembleFailures (ps : List (String × ProvOutcome)) : List String :=
  ps.filterMap (fun p =>
    match p.2 with
    | .env _ e => if optTruthy e then some (p.1 ++ ": " ++ e.getD "") else none
    | .exn m => some (p.1 ++ ": " ++ m))

/-- The ensemble loop is the accumulator form of the success and failure
lists. -/
theorem ensembleLoop_eq (ps : List (String × ProvOutcome)) :
    ∀ rs es, ensembleLoop ps rs es =
      (rs ++ ensembleSuccesses ps, es ++ ensembleFailures ps) := by
  induction ps with
  | nil => intro rs es; simp [ensembleLoop, ensembleSuccesses, ensembleFailures]
  | cons p rest ih =>
    intro rs es
    obtain ⟨name, o⟩ := p
    cases o with
    | env t e =>
      by_cases he : optTruthy e
      · simp [ensembleLoop, he, ih, ensembleSuccesses, ensembleFailures,
          List.filterMap_cons]
      · by_cases htx : t = ""
        · simp [ensembleLoop, he, htx, ih, ensembleSuccesses, ensembleFailures,
            List.filterMap_cons]
        · simp [ensembleLoop, he, htx, ih, ensembleSuccesses, ensembleFailures,
            List.filterMap_cons]
    | exn m =>
      simp [ensembleLoop, ih, ensembleSuccesses, ensembleFailures, List.filterMap_cons]

/-- Every successful text is nonempty. -/
theorem ensembleSuccesses_text_ne (ps : List (String × ProvOutcome)) :
    ∀ q ∈ ensembleSuccesses ps, q.2 ≠ "" := by
  intro q hq
  rw [ensembleSuccesses, List.mem_filterMap] at hq
  obtain ⟨p, _, hf⟩ := hq
  obtain ⟨name, o⟩ := p
  cases o with
  | env t e =>
    by_cases he : optTruthy e
    · simp [he] at hf
    · by_cases htx : t = ""
      · simp [he, htx] at hf
      · simp only [he, htx] at hf
        simp at hf
        rw [← hf.2]
        simpa using htx
  | exn m => simp at hf

/-- Filtering the successful texts for nonemptiness changes nothing. -/
theorem ensembleSuccesses_filter (ps : List (String × ProvOutcome)) :
    List.filter (fun t => !decide (t = "")) ((ensembleSuccesses ps).map Prod.snd) =
      (ensembleSuccesses ps).map Prod.snd := by
  apply List.filter_eq_self.mpr
  intro a ha
  rw [List.mem_map] at ha
  obtain ⟨q, hq, rfl⟩ := ha
  simpa using ensembleSuccesses_text_ne ps q hq

/-- C3: the ensemble mode merges exactly the successful nonempty texts with
a single-space separator in provider-list order, skipping failed providers;
with zero successes and at least one recorded failure it returns the failure
reasons joined by a semicolon; on the three-provider example where A and C
succeed with foo and baz and B fails, the merged text is foo baz and the
failure list holds only the failure of B. -/
theorem C3_ensemble_merge (ps ps₁ ps₂ : List (String × ProvOutcome))
    (h₁ : ensembleSuccesses ps₁ ≠ [])
    (h₂ : ensembleSuccesses ps₂ = []) (h₃ : ensembleFailures ps₂ ≠ []) :
    (ensembleLoop ps [] []).1 = ensembleSuccesses ps ∧
    (ensembleLoop ps [] []).2 = ensembleFailures ps ∧
    (ai_orchestrate_ensemble ps₁).result =
      some (String.intercalate " " ((ensembleSuccesses ps₁).map Prod.snd)) ∧
    (ai_orchestrate_ensemble ps₁).provider =
      some ((ensembleSuccesses ps₁).map Prod.fst) ∧
    (ai_orchestrate_ensemble ps₂).result = none ∧
    (ai_orchestrate_ensemble ps₂).error =
      some (String.intercalate "; " (ensembleFailures ps₂)) ∧
    ai_orchestrate_ensemble
        [("A", .env "foo" none), ("B", .exn "boom"), ("C", .env "baz" none)] =
      { provider := some ["A", "C"], result := some "foo baz",
        details := none, error := none } ∧
    ensembleFailures
        [("A", .env "foo" none), ("B", .exn "boom"), ("C", .env "baz" none)] =
      ["B: boom"] := by
  refine ⟨?_, ?_, ?_, ?_, ?_, ?_, by decide, by decide⟩
  · rw [ensembleLoop_eq]; simp
  · rw [ensembleLoop_eq]; simp
  · simp [ai_orchestrate_ensemble, ensembleLoop_eq, h₁, ensembleSuccesses_filter]
  · simp [ai_orchestrate_ensemble, ensembleLoop_eq, h₁, ensembleSuccesses_filter]
  · simp [ai_orchestrate_ensemble, ensembleLoop_eq, h₂]
  · simp [ai_orchestrate_ensemble, ensembleLoop_eq, h₂, h₃]

/-- Witness for C3: the foo-baz example as the success case and a single
throwing provider as the zero-success case. -/
theorem C3_ensemble_merge_witness :
    (ai_orchestrate_ensemble
        [("A", .env "foo" none), ("B", .exn "boom"), ("C", .env "baz" none)]).result =
      some (String.intercalate " "
        ((ensembleSuccesses
          [("A", .env "foo" none), ("B", .exn "boom"), ("C", .env "baz" none)]).map
            Prod.snd)) ∧
    (ai_orchestrate_ensemble [("B", .exn "boom")]).error =
      some (String.intercalate "; " (ensembleFailures [("B", .exn "boom")])) ∧
    ai_orchestrate_ensemble
        [("A", .env "foo" none), ("B", .exn "boom"), ("C", .env "baz" none)] =
      { provider := some ["A", "C"], result := some "foo baz",
        details := none, error := none } := by
  have h := C3_ensemble_merge
    [("A", .env "foo" none), ("B", .exn "boom"), ("C", .env "baz" none)]
    [("A", .env "foo" none), ("B", .exn "boom"), ("C", .env "baz" none)]
    [("B", .exn "boom")] (by decide) (by decide) (by decide)
  exact ⟨h.2.2.1, h.2.2.2.2.2.1, h.2.2.2.2.2.2.1⟩

/-- C10: the available-provider list is always the empty list or the
singleton cohere, so the ensemble path iterates over at most one provider
and its merged text is never the concatenation of more than one provider
output: the result is either none or exactly the single successful text. -/
theorem C10_single_provider_ensemble (info : ProviderInfo) (f : String → ProvOutcome) :
    (get_available_ai_providers info = ["cohere"] ∨
      get_available_ai_providers info = []) ∧
    (get_available_ai_providers info).length ≤ 1 ∧
    (ensembleSuccesses
      ((get_available_ai_providers info).map (fun n => (n, f n)))).length ≤ 1 ∧
    ((ai_orchestrate_ensemble
        ((get_available_ai_providers info).map (fun n => (n, f n)))).result = none ∨
      ∃ t, ensembleSuccesses
          ((get_available_ai_providers info).map (fun n => (n, f n))) = [("cohere", t)] ∧
        (ai_orchestrate_ensemble
          ((get_available_ai_providers info).map (fun n => (n, f n)))).result = some t) := by
  cases hav : info.available with
  | false =>
    refine ⟨Or.inr ?_, ?_, ?_, Or.inl ?_⟩ <;>
      simp [get_available_ai_providers, hav, ensembleSuccesses,
        ai_orchestrate_ensemble, ensembleLoop]
  | true =>
    have hlist : get_available_ai_providers info = ["cohere"] := by
      simp [get_available_ai_providers, hav]
    refine ⟨Or.inl hlist, by rw [hlist]; simp, ?_, ?_⟩
    · rw [hlist]
      cases hf : f "cohere" with
      | env t e =>
        by_cases he : optTruthy e
        · simp [ensembleSuccesses, hf, he]
        · by_cases htx : t = "" <;> simp [ensembleSuccesses, hf, he, htx]
      | exn m => simp [ensembleSuccesses, hf]
    · rw [hlist]
      cases hf : f "cohere" with
      | env t e =>
        by_cases he : optTruthy e
        · exact Or.inl (by simp [ai_orchestrate_ensemble, ensembleLoop, hf, he])
        · by_cases htx : t = ""
          · exact Or.inl (by simp [ai_orchestrate_ensemble, ensembleLoop, hf, he, htx])
          · refine Or.inr ⟨t, ?_, ?_⟩
            · simp [ensembleSuccesses, hf, he, htx]
            · simp only [List.map_cons, List.map_nil, ai_orchestrate_ensemble,
                ensembleLoop, hf]
              simp [he, htx]
              rfl
      | exn m =>
        exact Or.inl (by simp [ai_orchestrate_ensemble, ensembleLoop, hf])

/-- One observable outcome of the cohere chat call inside the backoff loop
of LLMClient in advanced_osint_source_generator.py: a 429 rate-limit
exception, a normal response (whose text may be empty, returned as none), or
any other exception. -/
inductive CohereResp where
  | rate429
  | ok (text : Option String)
  | err (msg : String)
deriving Repr, DecidableEq

/-- Total sleep accumulated by n consecutive backoffs starting at b seconds,
doubling and capping at 80, as in the loop of LLMClient writing
backoff equal to min (backoff * 2) 80 after each 429. -/
def geomWait : Nat → Nat → Nat
  | _, 0 => 0
  | b, n + 1 => b + geomWait (min (b * 2) 80) n

/-- The backoff value after n doubling-and-capping steps from b. -/
def capPow : Nat → Nat → Nat
  | b, 0 => b
  | b, n + 1 => capPow (min (b * 2) 80) n

/-- The retry loop of LLMClient in advanced_osint_source_generator.py,
driven by the trace of successive call outcomes: on a 429 sleep the current
backoff, double it capping at 80, and retry; on a response return its text
(none when empty); on any other exception return none. The result is paired
with the total seconds slept. An exhausted trace is a model artifact and
yields none: the source loops until a decisive outcome. -/
def llm_ask_loop : List CohereResp → Nat → Option String × Nat
  | [], _ => (none, 0)
  | .rate429 :: rest, b =>
    let r := llm_ask_loop rest (min (b * 2) 80)
    (r.1, b + r.2)
  | .ok t :: _, _ => (t, 0)
  | .err _ :: _, _ => (none, 0)

/-- The ask entry of LLMClient: the loop starts with a 10-second backoff. -/
def llm_ask_cohere (trace : List CohereResp) : Option String × Nat :=
  llm_ask_loop trace 10

/-- Peeling n leading rate-limit outcomes off the trace accumulates the
geometric wait and advances the backoff by n capped doublings. -/
theorem llm_ask_loop_replicate (n : Nat) : ∀ b rest,
    llm_ask_loop (List.replicate n .rate429 ++ rest) b =
      ((llm_ask_loop rest (capPow b n)).1,
        geomWait b n + (llm_ask_loop rest (capPow b n)).2) := by
  induction n with
  | zero => intro b rest; simp [capPow, geomWait]
  | succ k ih =>
    intro b rest
    simp [List.replicate_succ, llm_ask_loop, ih, capPow, geomWait, Nat.add_assoc]

/-- C4: the backoff loop waits 10 seconds after the first rate limit,
doubling up to the 80-second ceiling, and retries until a success or a
non-rate-limit error; after exactly three rate limits followed by a success
the total wait is 10 plus 20 plus 40, that is 70 seconds, and the call
returns the successful text rather than an error; five rate limits show the
ceiling, waiting 10 plus 20 plus 40 plus 80 plus 80 seconds. -/
theorem C4_backoff_schedule (n : Nat) (t msg : String) (rest : List CohereResp) :
    llm_ask_cohere (List.replicate n .rate429 ++ [.ok (some t)]) =
      (some t, geomWait 10 n) ∧
    llm_ask_cohere (List.replicate n .rate429 ++ .err msg :: rest) =
      (none, geomWait 10 n) ∧
    geomWait 10 3 = 70 ∧
    llm_ask_cohere [.rate429, .rate429, .rate429, .ok (some t)] = (some t, 70) ∧
    geomWait 10 5 = 230 := by
  have h3 : geomWait 10 3 = 70 := by decide
  refine ⟨?_, ?_, h3, ?_, by decide⟩
  · rw [llm_ask_cohere, llm_ask_loop_replicate]; simp [llm_ask_loop]
  · rw [llm_ask_cohere, llm_ask_loop_replicate]; simp [llm_ask_loop]
  · have hl : ([.rate429, .rate429, .rate429, .ok (some t)] : List CohereResp) =
        List.replicate 3 .rate429 ++ [.ok (some t)] := rfl
    rw [hl, llm_ask_cohere, llm_ask_loop_replicate, h3]
    simp [llm_ask_loop]

/-- Keys of the result records handled by the fan-out engine: the section 3
keys of cogs/ai.py together with the texts and locations keys that other
modules produce and the aggregator reads. -/
inductive RKey where
  | text
  | images
  | audio
  | video
  | links
  | maps
  | files
  | error
  | texts
  | locations
deriving Repr, DecidableEq

/-- AGG_KEYS of cogs/automation.py, in source order. -/
def AGG_KEYS : List RKey := [.links, .images, .texts, .locations, .audio, .text, .error]

/-- Value stored under one key of a module result record: absent, a string,
or a list of items. -/
inductive FieldVal where
  | absent
  | str (s : String)
  | list (l : List String)
deriving Repr, DecidableEq

/-- Result envelope collected by the fan-out engine of cogs/automation.py:
the result record, confidence, the error entry of details, and source.
The timestamp of the source is wall-clock only and is not modelled. -/
structure Envelope where
  result : RKey → FieldVal
  confidence : ℚ
  detailsError : Option String
  source : String

/-- Contribution of one stored value to the aggregate of its key, following
step 5 of handle_query_with_status: a list extends, a truthy (nonempty)
string appends as a single entry, anything else adds nothing. On these value
forms the error-and-text branch and the generic branch of the source loop
produce the same result, so a single match covers both. -/
def contrib (_k : RKey) (v : FieldVal) : List String :=
  match v with
  | .list l => l
  | .str s => if s ≠ "" then [s] else []
  | .absent => []

/-- Aggregation step of handle_query_with_status in cogs/automation.py:
for each key of AGG_KEYS, concatenate the contributions of the envelopes in
list order; keys outside AGG_KEYS are never accumulated. -/
def aggregate (envs : List Envelope) (k : RKey) : List String :=
  if k ∈ AGG_KEYS then
    envs.foldl (fun acc e => acc ++ contrib k (e.result k)) []
  else []

/-- Folding with an appending step factors through the empty accumulator. -/
theorem foldl_append_acc (f : Envelope → List String) (l : List Envelope) :
    ∀ acc, l.foldl (fun acc e => acc ++ f e) acc =
      acc ++ l.foldl (fun acc e => acc ++ f e) [] := by
  induction l with
  | nil => intro acc; simp
  | cons e rest ih =>
    intro acc
    simp only [List.foldl_cons]
    rw [ih (acc ++ f e), ih ([] ++ f e)]
    simp [List.append_assoc]

/-- C9: the aggregation step is a pure function of the envelope list; in
this embedding determinism and absence of mutation hold by construction, and
the theorem records that a repeated application yields the same mapping,
that accumulation follows envelope order (the aggregate of a concatenation
is the concatenation of the aggregates), and the value on the empty and the
singleton list. -/
theorem C9_aggregate_deterministic (envs xs ys : List Envelope) (k : RKey)
    (e : Envelope) :
    aggregate envs k = aggregate envs k ∧
    aggregate (xs ++ ys) k = aggregate xs k ++ aggregate ys k ∧
    aggregate [] k = [] ∧
    aggregate [e] k = (if k ∈ AGG_KEYS then contrib k (e.result k) else []) := by
  refine ⟨rfl, ?_, by simp [aggregate], by simp [aggregate]⟩
  by_cases hk : k ∈ AGG_KEYS
  · simp only [aggregate, hk, if_pos]
    rw [List.foldl_append, foldl_append_acc]
  · simp [aggregate, hk]

/-- Outcome of one registered module inside the fan-out loop: a returned
envelope or a raised exception. -/
inductive ModuleOutcome where
  | success (env : Envelope)
  | exn (msg : String)

/-- Boolean test for the exception outcome. -/
def isExn : ModuleOutcome → Bool
  | .exn _ => true
  | .success _ => false

/-- Message of an exception outcome, empty for a success. -/
def exnMsg : ModuleOutcome → String
  | .exn msg => msg
  | .success _ => ""

/-- One registered module as the fan-out loop sees it: name, outcome and
measured latency in seconds. -/
structure ModuleRun where
  name : String
  outcome : ModuleOutcome
  latency : ℚ

/-- Provider-result record appended per module by handle_query_with_status.
The success record stores no error; both store the module, latency and
status. -/
structure ProviderRecord where
  module : String
  error : Option String
  latency : ℚ
  status : String
deriving Repr, DecidableEq

/-- The result record of the synthetic error envelope of
handle_query_with_status: every AGG_KEYS key maps to the empty list and no
other key is present. -/
def synthetic_result : RKey → FieldVal :=
  fun k => if k ∈ AGG_KEYS then .list [] else .absent

/-- The synthetic error envelope built in the except branch of the module
loop: all-empty result record, confidence 0, the exception message stored in
details, and the module name as source. -/
def synthetic_envelope (name msg : String) : Envelope :=
  { result := synthetic_result, confidence := 0, detailsError := some msg, source := name }

/-- The module loop of handle_query_with_status in cogs/automation.py: each
success appends its envelope and a success record, each exception appends
the synthetic error envelope and an error record, in registry order. The
loop appends in iteration order, rendered here as cons-left recursion. -/
def runModules : List ModuleRun → List Envelope × List ProviderRecord
  | [] => ([], [])
  | m :: rest =>
    match m.outcome with
    | .success env =>
      ((env :: (runModules rest).1),
        ({ module := m.name, error := none, latency := m.latency,
           status := "success" } :: (runModules rest).2))
    | .exn msg =>
      ((synthetic_envelope m.name msg :: (runModules rest).1),
        ({ module := m.name, error := some msg, latency := m.latency,
           status := "error" } :: (runModules rest).2))

/-- The deduplication loop of create_report in cogs/reports.py: keep the
first occurrence of each item, tracking the already-kept items. -/
def dedupLoop : List String → List String → List String
  | [], _ => []
  | x :: xs, seen => if x ∈ seen then dedupLoop xs seen else x :: dedupLoop xs (x :: seen)

/-- Deduplication preserving first-occurrence order. -/
def dedup (l : List String) : List String := dedupLoop l []

/-- create_report of cogs/reports.py: deduplicate the five user-facing
categories, render the nonempty sections in the fixed order texts, links,
images, locations, audio, and close with the summary line counting the
deduplicated items and the modules. -/
def create_report (results : List Envelope) (aggregated : RKey → List String) : String :=
  let texts := dedup (aggregated .texts)
  let links := dedup (aggregated .links)
  let images := dedup (aggregated .images)
  let locations := dedup (aggregated .locations)
  let audio := dedup (aggregated .audio)
  let lines :=
    (if texts ≠ [] then "**📝 Texts:**" :: texts.map (fun t => "- " ++ t) else []) ++
    (if links ≠ [] then "\n**🔗 Links:**" :: links.map (fun u => "- " ++ u) else []) ++
    (if images ≠ [] then "\n**🖼️ Images:**" :: images.map (fun u => "- " ++ u) else []) ++
    (if locations ≠ [] then
      "\n**📍 Locations:**" :: locations.map (fun u => "- " ++ u) else []) ++
    (if audio ≠ [] then "\n**🔊 Audio:**" :: audio.map (fun u => "- " ++ u) else []) ++
    ["\n_Report generated: " ++
      toString (links.length + images.length + texts.length + locations.length +
        audio.length) ++
      " items from " ++ toString results.length ++ " modules._"]
  String.intercalate "\n" lines

/-- The report builder as section 4.6 of the spec words it: a fixed ordered
list of header-and-items sections, each section omitted when its
deduplicated item list is empty, closed by a summary counting all
deduplicated items and the modules. -/
def createReportSpec (results : List Envelope) (aggregated : RKey → List String) : String :=
  let cats : List (String × List String) :=
    [("**📝 Texts:**", dedup (aggregated .texts)),
     ("\n**🔗 Links:**", dedup (aggregated .links)),
     ("\n**🖼️ Images:**", dedup (aggregated .images)),
     ("\n**📍 Locations:**", dedup (aggregated .locations)),
     ("\n**🔊 Audio:**", dedup (aggregated .audio))]
  let body := cats.foldr
    (fun c acc => (if c.2 ≠ [] then c.1 :: c.2.map (fun i => "- " ++ i) else []) ++ acc) []
  let total := (cats.map (fun c => c.2.length)).sum
  String.intercalate "\n"
    (body ++ ["\n_Report generated: " ++ toString total ++ " items from " ++
      toString results.length ++ " modules._"])

/-- Outcome of the orchestration core of handle_query_with_status:
aggregated mapping, raw envelope list, rendered report. -/
structure HandleOut where
  aggregated : RKey → List String
  raw_results : List Envelope
  report : String

/-- Steps 3 to 6 of handle_query_with_status in cogs/automation.py: the
satellite envelopes collected in step 3 precede the module envelopes; the
aggregation and the report are computed from the combined list. The status
callbacks, pacing sleeps and analytics logging are transport effects outside
the embedding. -/
def handle_query_core (satelliteEnvs : List Envelope) (mods : List ModuleRun) :
    HandleOut :=
  let pr := runModules mods
  let results := satelliteEnvs ++ pr.1
  let aggregated := aggregate results
  { aggregated := aggregated
    raw_results := results
    report := create_report results aggregated }

/-- Membership in the deduplication loop: kept iff present in the remaining
input and not already seen. -/
theorem dedupLoop_mem (l : List String) :
    ∀ seen x, x ∈ dedupLoop l seen ↔ x ∈ l ∧ x ∉ seen := by
  induction l with
  | nil => intro seen x; simp [dedupLoop]
  | cons a xs ih =>
    intro seen x
    by_cases ha : a ∈ seen
    · rw [dedupLoop, if_pos ha, ih]
      constructor
      · rintro ⟨h1, h2⟩; exact ⟨List.mem_cons_of_mem a h1, h2⟩
      · rintro ⟨h1, h2⟩
        rcases List.mem_cons.mp h1 with rfl | h1
        · exact absurd ha h2
        · exact ⟨h1, h2⟩
    · rw [dedupLoop, if_neg ha]
      rw [List.mem_cons, ih]
      constructor
      · rintro (rfl | ⟨h1, h2⟩)
        · exact ⟨List.mem_cons_self x xs, ha⟩
        · refine ⟨List.mem_cons_of_mem a h1, fun hs => h2 (List.mem_cons_of_mem a hs)⟩
      · rintro ⟨h1, h2⟩
        rcases List.mem_cons.mp h1 with rfl | h1
        · exact Or.inl rfl
        · by_cases hx : x = a
          · exact Or.inl hx
          · exact Or.inr ⟨h1, by simp [List.mem_cons, hx, h2]⟩

/-- The deduplication loop returns a list without duplicates. -/
theorem dedupLoop_nodup (l : List String) : ∀ seen, (dedupLoop l seen).Nodup := by
  induction l with
  | nil => intro seen; simp [dedupLoop]
  | cons a xs ih =>
    intro seen
    by_cases ha : a ∈ seen
    · rw [dedupLoop, if_pos ha]; exact ih seen
    · rw [dedupLoop, if_neg ha, List.nodup_cons]
      refine ⟨fun hmem => ?_, ih (a :: seen)⟩
      rw [dedupLoop_mem] at hmem
      exact hmem.2 (List.mem_cons_self a seen)

/-- The deduplication loop returns a sublist of its input, so relative
first-occurrence order is preserved. -/
theorem dedupLoop_sublist (l : List String) :
    ∀ seen, List.Sublist (dedupLoop l seen) l := by
  induction l with
  | nil => intro seen; simp [dedupLoop]
  | cons a xs ih =>
    intro seen
    by_cases ha : a ∈ seen
    · rw [dedupLoop, if_pos ha]; exact List.Sublist.cons a (ih seen)
    · rw [dedupLoop, if_neg ha]; exact List.Sublist.cons₂ a (ih (a :: seen))

/-- C5: the report builder deduplicates each category independently
preserving first-occurrence order (the kept list has no duplicates, is a
sublist of its input, and keeps exactly the elements of the input; on the list
a b a c b it keeps a b c), and the rendered report is the spec-side fixed
section order texts, links, images, locations, audio with empty sections
omitted and a trailing summary counting deduplicated items and modules. -/
theorem C5_report_dedup_order (l : List String) (results : List Envelope)
    (aggregated : RKey → List String) :
    dedup ["a", "b", "a", "c", "b"] = ["a", "b", "c"] ∧
    (dedup l).Nodup ∧
    List.Sublist (dedup l) l ∧
    (∀ x, x ∈ dedup l ↔ x ∈ l) ∧
    create_report results aggregated = createReportSpec results aggregated := by
  refine ⟨by decide, dedupLoop_nodup l [], dedupLoop_sublist l [], ?_, ?_⟩
  · intro x
    rw [dedup, dedupLoop_mem]
    simp
  · unfold create_report createReportSpec
    simp only [List.foldr_cons, List.foldr_nil, List.map_cons, List.map_nil,
      List.sum_cons, List.sum_nil, List.append_nil, List.append_assoc]
    have htot :
        (dedup (aggregated .links)).length + (dedup (aggregated .images)).length +
            (dedup (aggregated .texts)).length + (dedup (aggregated .locations)).length +
            (dedup (aggregated .audio)).length =
          (dedup (aggregated .texts)).length + ((dedup (aggregated .links)).length +
            ((dedup (aggregated .images)).length + ((dedup (aggregated .locations)).length +
              ((dedup (aggregated .audio)).length + 0)))) := by
      omega
    rw [htot]

/-- C1 counterexample: for a single module raising an exception, the
synthetic envelope appended by the fan-out loop does not have every section
3 field present with only error set: the video field is absent from its
result record, and its error field is the empty list rather than a set
error value, the exception message living in the provider record instead. -/
theorem C1_synthetic_envelope_counterexample :
    (runModules [⟨"AI Analysis", .exn "boom", 1⟩]).1.length = 1 ∧
    ((runModules [⟨"AI Analysis", .exn "boom", 1⟩]).1.headD
        (synthetic_envelope "AI Analysis" "boom")).result .video = .absent ∧
    ((runModules [⟨"AI Analysis", .exn "boom", 1⟩]).1.headD
        (synthetic_envelope "AI Analysis" "boom")).result .error = .list [] ∧
    (runModules [⟨"AI Analysis", .exn "boom", 1⟩]).2 =
      [{ module := "AI Analysis", error := some "boom", latency := 1,
         status := "error" }] :=
  ⟨rfl, by decide, by decide, by decide⟩

/-- The envelope that the fan-out loop appends for one module: the returned
envelope on success, the synthetic error envelope on an exception. -/
def moduleEnvelope (m : ModuleRun) : Envelope :=
  match m.outcome with
  | .success env => env
  | .exn msg => synthetic_envelope m.name msg

/-- The provider-result record that the fan-out loop appends for one module. -/
def moduleRecord (m : ModuleRun) : ProviderRecord :=
  match m.outcome with
  | .success _ =>
    { module := m.name, error := none, latency := m.latency, status := "success" }
  | .exn msg =>
    { module := m.name, error := some msg, latency := m.latency, status := "error" }

/-- The fan-out loop processes every module, raising or not, appending one
envelope and one record per module in registry order. -/
theorem runModules_eq_map (mods : List ModuleRun) :
    runModules mods = (mods.map moduleEnvelope, mods.map moduleRecord) := by
  induction mods with
  | nil => simp [runModules]
  | cons m rest ih =>
    cases ho : m.outcome with
    | success env => simp [runModules, ho, ih, moduleEnvelope, moduleRecord]
    | exn msg => simp [runModules, ho, ih, moduleEnvelope, moduleRecord]

/-- When every module raises, the fan-out produces exactly the synthetic
envelopes and error records, in registry order. -/
theorem runModules_all_exn (mods : List ModuleRun)
    (h : ∀ m ∈ mods, isExn m.outcome = true) :
    runModules mods =
      (mods.map (fun m => synthetic_envelope m.name (exnMsg m.outcome)),
        mods.map (fun m =>
          { module := m.name, error := some (exnMsg m.outcome), latency := m.latency,
            status := "error" })) := by
  induction mods with
  | nil => simp [runModules]
  | cons m rest ih =>
    have hm : isExn m.outcome = true := h m (List.mem_cons_self m rest)
    have hrest : ∀ m₁ ∈ rest, isExn m₁.outcome = true :=
      fun m₁ h₁ => h m₁ (List.mem_cons_of_mem m h₁)
    cases ho : m.outcome with
    | success env => rw [ho] at hm; simp [isExn] at hm
    | exn msg => simp [runModules, ho, ih hrest, exnMsg]

/-- The synthetic result record contributes nothing to any aggregate key. -/
theorem contrib_synthetic (k : RKey) : contrib k (synthetic_result k) = [] := by
  unfold synthetic_result contrib
  by_cases hk : k ∈ AGG_KEYS <;> simp [hk]

/-- Aggregating only synthetic envelopes yields the empty mapping. -/
theorem aggregate_map_synthetic (mods : List ModuleRun) (k : RKey) :
    aggregate (mods.map (fun m => synthetic_envelope m.name (exnMsg m.outcome))) k = [] := by
  unfold aggregate
  by_cases hk : k ∈ AGG_KEYS
  · simp only [hk, if_pos]
    induction mods with
    | nil => simp
    | cons m rest ih =>
      simpa [List.map_cons, List.foldl_cons, synthetic_envelope, contrib_synthetic]
        using ih
  · simp [hk]

/-- Rendering an all-empty aggregated mapping yields only the summary line
with a zero item count. -/
theorem create_report_empty (results : List Envelope) (aggregated : RKey → List String)
    (h : ∀ k, aggregated k = []) :
    create_report results aggregated =
      "\n_Report generated: 0 items from " ++ toString results.length ++ " modules._" := by
  unfold create_report
  simp only [h]
  have hd : dedup [] = [] := rfl
  simp only [hd]
  simp only [ne_eq, not_true_eq_false, if_false, List.nil_append, List.length_nil]
  have hsingle : ∀ s : String, String.intercalate "\n" [s] = s := fun s => rfl
  rw [hsingle]
  have hlit : ("\n_Report generated: " ++ toString (0 + 0 + 0 + 0 + 0 : Nat) ++
      " items from " : String) = "\n_Report generated: 0 items from " := by decide
  rw [hlit]

/-- C1 (amended): for every run, mixed or not, the fan-out processes every
registered module, appending per module one envelope and one record in
registry order; a module that raises anywhere in the registry, among
succeeding neighbours, contributes in its place the synthetic error
envelope, whose result record maps every aggregation key (links, images,
texts, locations, audio, text, error) to the empty list, together with the
module-error record carrying the message, and the run continues with the
remaining modules, still producing the report string from all collected
envelopes; when every module fails the report degrades to the summary line
counting zero items and all modules. -/
theorem C1_fanout_error_isolation (mods fmods pre post : List ModuleRun)
    (satelliteEnvs : List Envelope) (mex : ModuleRun) (msg : String)
    (hmex : mex.outcome = .exn msg)
    (hf : ∀ m ∈ fmods, isExn m.outcome = true) :
    runModules mods = (mods.map moduleEnvelope, mods.map moduleRecord) ∧
    (runModules mods).1.length = mods.length ∧
    (runModules mods).2.length = mods.length ∧
    (runModules (pre ++ mex :: post)).1 =
      (runModules pre).1 ++ synthetic_envelope mex.name msg :: (runModules post).1 ∧
    (runModules (pre ++ mex :: post)).2 =
      (runModules pre).2 ++
        { module := mex.name, error := some msg, latency := mex.latency,
          status := "error" } :: (runModules post).2 ∧
    (handle_query_core satelliteEnvs mods).report =
      create_report (satelliteEnvs ++ mods.map moduleEnvelope)
        (aggregate (satelliteEnvs ++ mods.map moduleEnvelope)) ∧
    (handle_query_core [] fmods).report =
      "\n_Report generated: 0 items from " ++ toString fmods.length ++ " modules._" := by
  refine ⟨runModules_eq_map mods, ?_, ?_, ?_, ?_, ?_, ?_⟩
  · rw [runModules_eq_map]; simp
  · rw [runModules_eq_map]; simp
  · rw [runModules_eq_map, runModules_eq_map, runModules_eq_map]
    simp [moduleEnvelope, hmex]
  · rw [runModules_eq_map, runModules_eq_map, runModules_eq_map]
    simp [moduleRecord, hmex]
  · unfold handle_query_core
    rw [runModules_eq_map]
  · have hr := runModules_all_exn fmods hf
    unfold handle_query_core
    simp only [hr, List.nil_append]
    rw [create_report_empty _ _ (aggregate_map_synthetic fmods)]
    simp

/-- Witness for C1 at a concrete mixed run: a succeeding module, a raising
module, and another succeeding module, plus an all-failing two-module run
for the degradation case. -/
theorem C1_fanout_error_isolation_witness :
    runModules [⟨"AI Analysis",
        ModuleOutcome.success
          { result := fun _ => FieldVal.absent, confidence := 1,
            detailsError := none, source := "ai" }, 1⟩,
      ⟨"OSINT", ModuleOutcome.exn "boom", 2⟩] =
      ([{ result := fun _ => FieldVal.absent, confidence := 1,
          detailsError := none, source := "ai" },
        synthetic_envelope "OSINT" "boom"],
       [{ module := "AI Analysis", error := none, latency := 1,
          status := "success" },
        { module := "OSINT", error := some "boom", latency := 2,
          status := "error" }]) ∧
    (runModules [⟨"AI Analysis",
        ModuleOutcome.success
          { result := fun _ => FieldVal.absent, confidence := 1,
            detailsError := none, source := "ai" }, 1⟩,
      ⟨"OSINT", ModuleOutcome.exn "boom", 2⟩]).1.length = 2 ∧
    (runModules ([⟨"AI Analysis",
        ModuleOutcome.success
          { result := fun _ => FieldVal.absent, confidence := 1,
            detailsError := none, source := "ai" }, 1⟩] ++
      ⟨"OSINT", ModuleOutcome.exn "boom", 2⟩ ::
        [⟨"Verify", ModuleOutcome.success
          { result := fun _ => FieldVal.absent, confidence := 1,
            detailsError := none, source := "verify" }, 3⟩])).1 =
      [{ result := fun _ => FieldVal.absent, confidence := 1,
         detailsError := none, source := "ai" },
       synthetic_envelope "OSINT" "boom",
       { result := fun _ => FieldVal.absent, confidence := 1,
         detailsError := none, source := "verify" }] ∧
    (runModules ([⟨"AI Analysis",
        ModuleOutcome.success
          { result := fun _ => FieldVal.absent, confidence := 1,
            detailsError := none, source := "ai" }, 1⟩] ++
      ⟨"OSINT", ModuleOutcome.exn "boom", 2⟩ ::
        [⟨"Verify", ModuleOutcome.success
          { result := fun _ => FieldVal.absent, confidence := 1,
            detailsError := none, source := "verify" }, 3⟩])).2 =
      [{ module := "AI Analysis", error := none, latency := 1,
         status := "success" },
       { module := "OSINT", error := some "boom", latency := 2, status := "error" },
       { module := "Verify", error := none, latency := 3, status := "success" }] ∧
    (handle_query_core [] [⟨"AI Analysis", ModuleOutcome.exn "boom", 1⟩,
        ⟨"OSINT", ModuleOutcome.exn "fail", 2⟩]).report =
      "\n_Report generated: 0 items from 2 modules._" := by
  have h := C1_fanout_error_isolation
    [⟨"AI Analysis",
        ModuleOutcome.success
          { result := fun _ => FieldVal.absent, confidence := 1,
            detailsError := none, source := "ai" }, 1⟩,
      ⟨"OSINT", ModuleOutcome.exn "boom", 2⟩]
    [⟨"AI Analysis", ModuleOutcome.exn "boom", 1⟩,
      ⟨"OSINT", ModuleOutcome.exn "fail", 2⟩]
    [⟨"AI Analysis",
        ModuleOutcome.success
          { result := fun _ => FieldVal.absent, confidence := 1,
            detailsError := none, source := "ai" }, 1⟩]
    [⟨"Verify", ModuleOutcome.success
        { result := fun _ => FieldVal.absent, confidence := 1,
          detailsError := none, source := "verify" }, 3⟩]
    [] ⟨"OSINT", ModuleOutcome.exn "boom", 2⟩ "boom" rfl (by decide)
  refine ⟨?_, h.2.1, ?_, ?_, ?_⟩
  · rw [h.1]; rfl
  · rw [h.2.2.2.1]; rfl
  · rw [h.2.2.2.2.1]; rfl
  · rw [h.2.2.2.2.2.2]; decide

end DiscordBot
